import Mathlib

set_option linter.unusedVariables false
set_option linter.unnecessarySeqFocus false

/- Shallow embedding of src/pyfiat/api.py (Blueion76/py-uconnect).

   Modelling conventions:
   * The HTTP transport, URL strings and the actual request signing are
     abstracted away: each outbound call is identified by the endpoint it
     targets and is recorded — together with its headers, its query/body
     parameters and the signer object passed as auth — in a request trace.
   * Server behaviour is a parameter of every operation (a `World` value
     giving each endpoint's response, the cognito identity-pool answer and
     the current wall-clock time in seconds).
   * Python dicts that the code builds and merges are modelled as lookup
     functions `String → Option α` (Python `a | b` = right-biased merge);
     parsed JSON response documents are an inductive `Json`.
   * `uuid.uuid4().hex` is modelled as an entropy stream in the state:
     a function `Nat → List Char` together with a next-index counter. -/

/-- JSON documents as produced by `.json()` on a response. -/
inductive Json where
  | null : Json
  | bool : Bool → Json
  | num : Int → Json
  | str : String → Json
  | arr : List Json → Json
  | obj : List (String × Json) → Json

mutual

/-- Structural equality on JSON documents (Python `==` and `!=`). -/
def Json.beq : Json → Json → Bool
  | .null, .null => true
  | .bool a, .bool b => a == b
  | .num a, .num b => a == b
  | .str a, .str b => a == b
  | .arr a, .arr b => Json.beqL a b
  | .obj a, .obj b => Json.beqO a b
  | _, _ => false

/-- Elementwise equality of JSON arrays. -/
def Json.beqL : List Json → List Json → Bool
  | [], [] => true
  | x :: xs, y :: ys => Json.beq x y && Json.beqL xs ys
  | _, _ => false

/-- Elementwise equality of JSON object field lists. -/
def Json.beqO : List (String × Json) → List (String × Json) → Bool
  | [], [] => true
  | x :: xs, y :: ys => (x.1 == y.1 && Json.beq x.2 y.2) && Json.beqO xs ys
  | _, _ => false

end

instance : BEq Json := ⟨Json.beq⟩

/-- Key lookup in a JSON document: `some v` when the document is an object
    containing the key, `none` otherwise. -/
def Json.get? (j : Json) (k : String) : Option Json :=
  match j with
  | .obj fs => (fs.find? (fun p => p.1 == k)).map (fun p => p.2)
  | _ => none

/-- Python `k in r` on a parsed response document (key containment; `false`
    on non-objects — containment on other Python values is not exercised). -/
def Json.hasKey (j : Json) (k : String) : Bool :=
  match j with
  | .obj fs => fs.any (fun p => p.1 == k)
  | _ => false

/-- Python `r.get(k, d)`. -/
def Json.getD (j : Json) (k : String) (d : Json) : Json :=
  match j.get? k with
  | some v => v
  | none => d

/-- Python `str()` as applied by the f-string building the command error
    message.  Rendering of containers is abstracted (never exercised: the
    server's `debugMsg` diagnostics are strings). -/
def fstr : Json → String
  | .null => "None"
  | .bool true => "True"
  | .bool false => "False"
  | .num n => toString n
  | .str s => s
  | .arr _ => "[...]"
  | .obj _ => "..."

/-- Error values: Python exceptions thrown by the code or by the runtime.
    `exception` is `raise Exception(msg)`; `keyError` a failed `r[k]` dict
    access; `typeError` indexing a non-dict; `jsonError` a `.json()` parse
    failure; `clientError` a boto3 client failure from the cognito call. -/
inductive Err where
  | exception : String → Err
  | keyError : String → Err
  | typeError : String → Err
  | jsonError : Err
  | clientError : String → Err
deriving DecidableEq

/-- Constructor (Python type) of an error, forgetting its message: two
    raises of `Exception(...)` have the same kind however their message
    strings differ. -/
def Err.kind : Err → String
  | .exception _ => "Exception"
  | .keyError _ => "KeyError"
  | .typeError _ => "TypeError"
  | .jsonError => "JSONDecodeError"
  | .clientError _ => "ClientError"

/-- Python dicts built and merged by the client, as lookup functions. -/
abbrev PyDict (α : Type) := String → Option α

/-- Dict literal. -/
def ofPairs {α : Type} (l : List (String × α)) : PyDict α :=
  fun k => (l.find? (fun p => p.1 == k)).map (fun p => p.2)

/-- Python `a | b` on dicts: entries of `b` win on key collision. -/
def pyMerge {α : Type} (a b : PyDict α) : PyDict α :=
  fun k => match b k with
    | some v => some v
    | none => a k

/-- An HTTP response: status code and (when the body parses) JSON body. -/
structure HttpResponse where
  status : Nat
  body : Option Json

/-- The endpoints the client talks to (URL strings are abstracted). -/
inductive Endpoint where
  | bootstrap
  | accountsLogin
  | getJWT
  | tokenVend
  | cognitoGetCredentials
  | pinAuthenticate
  | commandPost
  | vehiclesList
  | vehicleGet
  | vehicleRemoteStatus
  | vehicleLocation
deriving DecidableEq

/-- Brand configuration (endpoint URLs abstracted to `Endpoint` tags; only
    the fields the modelled logic reads are kept). -/
structure Brand where
  region : String
  login_api_key : String
  api_key : String
  auth_api_key : String

/-- A command descriptor (`Command` of src/pyfiat/command.py: a name and
    the command-specific URL fragment). -/
structure Command where
  name : String
  url : String

/-- The AWSSigV4 signer object constructed from issued credentials. -/
structure Credential where
  service : String
  region : String
  aws_access_key_id : String
  aws_secret_access_key : String
  aws_session_token : String
deriving DecidableEq

/-- The `Credentials` member of a successful boto3
    `get_credentials_for_identity` answer (`Expiration` as seconds). -/
structure CognitoCredentials where
  AccessKeyId : String
  SecretKey : String
  SessionToken : String
  Expiration : Int

/-- Mutable attributes of the `API` object (plus its constructor
    arguments, which are never reassigned). -/
structure API where
  email : String
  password : String
  pin : String
  brand : Brand
  dev_mode : Bool
  uid : Option Json
  aws_auth : Option Credential
  expire_time : Option Int

/-- One recorded outbound call. -/
structure Req where
  ep : Endpoint
  headers : PyDict String
  params : PyDict Json
  auth : Option Credential

/-- The full mutable state of a run: the API object, the entropy stream
    feeding `uuid.uuid4().hex` and the trace of requests issued so far. -/
structure St where
  api : API
  rng : Nat → List Char
  rngIdx : Nat
  trace : List Req

/-- Environment of a run: each endpoint's response, the cognito
    identity-pool answer, dev-mode fixture files, and the current time. -/
structure World where
  now : Int
  resp : Endpoint → HttpResponse
  cognito : Except String CognitoCredentials
  fixture : Endpoint → Except Err Json

/-- State-and-error monad: an exception carries the state (request trace,
    stored attributes) forward, exactly as a Python exception would. -/
abbrev M (α : Type) := St → Except Err α × St

instance : Monad M where
  pure a := fun s => (Except.ok a, s)
  bind x f := fun s =>
    match x s with
    | (Except.ok a, s') => f a s'
    | (Except.error e, s') => (Except.error e, s')

/-- Python `raise`. -/
def throwE {α : Type} (e : Err) : M α := fun s => (Except.error e, s)

/-- Read the current API object (Python attribute access). -/
def getApi : M API := fun s => (Except.ok s.api, s)

/-- Attribute assignment on the API object. -/
def modifyApi (f : API → API) : M Unit :=
  fun s => (Except.ok (), { s with api := f s.api })

/-- Lift a pure fallible computation. -/
def liftE {α : Type} (x : Except Err α) : M α := fun s => (x, s)

/-- One draw of `uuid.uuid4().hex` from the entropy stream. -/
def uuid4hex : M (List Char) :=
  fun s => (Except.ok (s.rng s.rngIdx), { s with rngIdx := s.rngIdx + 1 })

/-- Issue an outbound call (`self.sess.request(...)` /
    `cognito_client.get_credentials_for_identity`): record it in the trace
    and hand back the environment's response for that endpoint. -/
def sessRequest (w : World) (ep : Endpoint) (headers : PyDict String)
    (params : PyDict Json) (auth : Option Credential) : M HttpResponse :=
  fun s =>
    (Except.ok (w.resp ep),
     { s with trace := { ep := ep, headers := headers, params := params, auth := auth } :: s.trace })

/-- Python `.json()` on a response: the parsed body, or a decode error. -/
def getJson (r : HttpResponse) : M Json :=
  match r.body with
  | some j => pure j
  | none => throwE Err.jsonError

/-- Python `r[k]` on a parsed document. -/
def getKey (j : Json) (k : String) : M Json :=
  match j with
  | .obj fs =>
    match Json.get? (.obj fs) k with
    | some v => pure v
    | none => throwE (Err.keyError k)
  | _ => throwE (Err.typeError k)

/-- Fixed default parameter dict of `_with_default_params` (lines 31-39). -/
def default_params (api : API) : PyDict Json :=
  ofPairs [
    ("targetEnv", Json.str "jssdk"),
    ("loginMode", Json.str "standard"),
    ("sdk", Json.str "js_latest"),
    ("authMode", Json.str "cookie"),
    ("sdkBuild", Json.str "12234"),
    ("format", Json.str "json"),
    ("APIKey", Json.str api.brand.login_api_key)]

/-- `API._with_default_params` (lines 30-39): `params | defaults`. -/
def with_default_params (api : API) (params : PyDict Json) : PyDict Json :=
  pyMerge params (default_params api)

/-- The correlation id: `uuid.uuid4().hex.upper()[0:16]` (line 45). -/
def clientrequestid_of (u : List Char) : String :=
  String.mk ((u.map Char.toUpper).take 16)

/-- `API._default_aws_headers` (lines 41-49), with the freshly drawn
    `uuid4().hex` passed in explicitly. -/
def default_aws_headers (key : String) (u : List Char) : PyDict String :=
  ofPairs [
    ("x-clientapp-name", "CWP"),
    ("x-clientapp-version", "1.0"),
    ("clientrequestid", clientrequestid_of u),
    ("x-api-key", key),
    ("locale", "de_de"),
    ("x-originator-type", "web")]

/-- Base64 alphabet. -/
def b64chars : String :=
  "ABCDEFGHIJKLMNOPQRSTUVWXYZabcdefghijklmnopqrstuvwxyz0123456789+/"

/-- Base64 digit. -/
def b64char (n : Nat) : Char := b64chars.data.getD n 'A'

/-- Base64 of a byte list, three bytes a group, with padding. -/
def b64groups : List Nat → List Char
  | [] => []
  | [a] => [b64char (a / 4), b64char (a % 4 * 16), '=', '=']
  | [a, b] => [b64char (a / 4), b64char (a % 4 * 16 + b / 16), b64char (b % 16 * 4), '=']
  | a :: b :: c :: rest =>
    b64char (a / 4) :: b64char (a % 4 * 16 + b / 16) ::
      b64char (b % 16 * 4 + c / 64) :: b64char (c % 64) :: b64groups rest

/-- Python `base64.b64encode(s.encode()).decode("utf-8")` (line 208). -/
def b64encode (s : String) : String :=
  String.mk (b64groups (s.toUTF8.toList.map (fun b => b.toNat)))

/-- The AWSSigV4 signer built from issued cognito credentials
    (lines 110-116). -/
def mkAWSSigV4 (b : Brand) (c : CognitoCredentials) : Credential :=
  { service := "execute-api", region := b.region,
    aws_access_key_id := c.AccessKeyId,
    aws_secret_access_key := c.SecretKey,
    aws_session_token := c.SessionToken }

/-- The boto3 `get_credentials_for_identity` call (lines 103-106): it is
    recorded in the trace like every outbound call; its answer (or client
    failure) comes from the environment. -/
def cognitoGetCredentials (w : World) (identityId token : Json) : M CognitoCredentials :=
  fun s =>
    let s' := { s with trace :=
      { ep := Endpoint.cognitoGetCredentials, headers := ofPairs [],
        params := ofPairs [("IdentityId", identityId), ("Logins", token)],
        auth := none } :: s.trace }
    match w.cognito with
    | Except.ok c => (Except.ok c, s')
    | Except.error m => (Except.error (Err.clientError m), s')

/-- `API.login` (lines 51-118).  The cognito client construction
    (lines 54-56) is connection setup with no observable effect and is
    omitted; everything else is step for step the source. -/
def login (w : World) : M Unit := do
  let api ← getApi
  let r ← sessRequest w Endpoint.bootstrap (ofPairs [])
    (ofPairs [("apiKey", Json.str api.brand.login_api_key)]) none
  let j ← getJson r
  let sc ← getKey j "statusCode"
  if sc != Json.num 200 then throwE (Err.exception "bootstrap failed")
  let r ← sessRequest w Endpoint.accountsLogin (ofPairs [])
    (with_default_params api (ofPairs [
      ("loginID", Json.str api.email),
      ("password", Json.str api.password),
      ("sessionExpiration", Json.num 300),
      ("include", Json.str "profile,data,emails,subscriptions,preferences")])) none
  let j ← getJson r
  let sc ← getKey j "statusCode"
  if sc != Json.num 200 then throwE (Err.exception "login failed")
  let uid ← getKey j "UID"
  modifyApi (fun a => { a with uid := some uid })
  let si ← getKey j "sessionInfo"
  let login_token ← getKey si "login_token"
  let r ← sessRequest w Endpoint.getJWT (ofPairs [])
    (with_default_params api (ofPairs [
      ("login_token", login_token),
      ("fields", Json.str "profile.firstName,profile.lastName,profile.email,country,locale,data.disclaimerCodeGSDP")])) none
  let j ← getJson r
  let sc ← getKey j "statusCode"
  if sc != Json.num 200 then throwE (Err.exception "unable to obtain JWT")
  let u ← uuid4hex
  let hdrs := default_aws_headers api.brand.api_key u
  let id_token ← getKey j "id_token"
  let r ← sessRequest w Endpoint.tokenVend hdrs
    (ofPairs [("gigya_token", id_token)]) none
  let j ← getJson r
  let identityId ← getKey j "IdentityId"
  let token ← getKey j "Token"
  let creds ← cognitoGetCredentials w identityId token
  modifyApi (fun a => { a with aws_auth := some (mkAWSSigV4 api.brand creds) })
  modifyApi (fun a => { a with expire_time := some creds.Expiration })

/-- The refresh safety margin, `datetime.timedelta(minutes=5)`, seconds. -/
def safety_margin : Int := 5 * 60

/-- The staleness test of line 126:
    `self.expire_time is None or now > self.expire_time - timedelta(minutes=5)`. -/
def is_stale (expire_time : Option Int) (now : Int) : Bool :=
  match expire_time with
  | none => true
  | some e => decide (now > e - safety_margin)

/-- `API._refresh_token_if_needed` (lines 120-127). -/
def refresh_token_if_needed (w : World) : M Unit := do
  let api ← getApi
  if api.dev_mode then
    pure ()
  else
    if is_stale api.expire_time w.now then login w else pure ()

/-- `API.list_vehicles` (lines 129-145). -/
def list_vehicles (w : World) : M Json := do
  let api ← getApi
  if api.dev_mode then do
    let j ← liftE (w.fixture Endpoint.vehiclesList)
    getKey j "vehicles"
  else do
    refresh_token_if_needed w
    let api ← getApi
    let u ← uuid4hex
    let r ← sessRequest w Endpoint.vehiclesList
      (pyMerge (default_aws_headers api.brand.api_key u)
        (ofPairs [("content-type", "application/json")]))
      (ofPairs [("stage", Json.str "ALL")]) api.aws_auth
    let j ← getJson r
    getKey j "vehicles"

/-- `API.get_vehicle` (lines 147-162). -/
def get_vehicle (w : World) (vin : String) : M Json := do
  let api ← getApi
  if api.dev_mode then
    liftE (w.fixture Endpoint.vehicleGet)
  else do
    refresh_token_if_needed w
    let api ← getApi
    let u ← uuid4hex
    let r ← sessRequest w Endpoint.vehicleGet
      (pyMerge (default_aws_headers api.brand.api_key u)
        (ofPairs [("content-type", "application/json")]))
      (ofPairs []) api.aws_auth
    getJson r

/-- `API.get_vehicle_status` (lines 164-180). -/
def get_vehicle_status (w : World) (vin : String) : M Json := do
  let api ← getApi
  if api.dev_mode then
    liftE (w.fixture Endpoint.vehicleRemoteStatus)
  else do
    refresh_token_if_needed w
    let api ← getApi
    let u ← uuid4hex
    let r ← sessRequest w Endpoint.vehicleRemoteStatus
      (pyMerge (default_aws_headers api.brand.api_key u)
        (ofPairs [("content-type", "application/json")]))
      (ofPairs []) api.aws_auth
    getJson r

/-- `API.get_vehicle_location` (lines 182-198). -/
def get_vehicle_location (w : World) (vin : String) : M Json := do
  let api ← getApi
  if api.dev_mode then
    liftE (w.fixture Endpoint.vehicleLocation)
  else do
    refresh_token_if_needed w
    let api ← getApi
    let u ← uuid4hex
    let r ← sessRequest w Endpoint.vehicleLocation
      (pyMerge (default_aws_headers api.brand.api_key u)
        (ofPairs [("content-type", "application/json")]))
      (ofPairs []) api.aws_auth
    getJson r

/- Concrete environments and states used by the counterexamples and
   witnesses below. -/

/-- A concrete brand configuration. -/
def brand1 : Brand :=
  { region := "eu-west-1", login_api_key := "LOGINKEY",
    api_key := "APIKEY", auth_api_key := "AUTHKEY" }

/-- A fixed 32-character lowercase-hex entropy value. -/
def hex32 : List Char := "0123456789abcdef0123456789abcdef".data

/-- A second, distinct entropy value. -/
def hex32b : List Char := "ffeeddccbbaa99887766554433221100".data

/-- An API object that has never logged in, dev mode off. -/
def api0 : API :=
  { email := "user@example.com", password := "pw", pin := "1234",
    brand := brand1, dev_mode := false,
    uid := none, aws_auth := none, expire_time := none }

/-- Entropy stream alternating between the two fixed values. -/
def rng0 : Nat → List Char := fun i => if i % 2 = 0 then hex32 else hex32b

/-- Initial state: fresh API object, empty trace. -/
def st0 : St := { api := api0, rng := rng0, rngIdx := 0, trace := [] }

/-- Response bodies of a fully successful login chain. -/
def respGood : Endpoint → HttpResponse
  | Endpoint.bootstrap => ⟨200, some (Json.obj [("statusCode", Json.num 200)])⟩
  | Endpoint.accountsLogin => ⟨200, some (Json.obj [
      ("statusCode", Json.num 200),
      ("UID", Json.str "uid-new"),
      ("sessionInfo", Json.obj [("login_token", Json.str "lt-1")])])⟩
  | Endpoint.getJWT => ⟨200, some (Json.obj [
      ("statusCode", Json.num 200), ("id_token", Json.str "jwt-1")])⟩
  | Endpoint.tokenVend => ⟨200, some (Json.obj [
      ("IdentityId", Json.str "idp-1"), ("Token", Json.str "fed-1")])⟩
  | Endpoint.pinAuthenticate => ⟨200, some (Json.obj [("token", Json.str "stepup-1")])⟩
  | Endpoint.commandPost => ⟨200, some (Json.obj [("responseStatus", Json.str "pending")])⟩
  | _ => ⟨200, some (Json.obj [("vehicles", Json.arr [])])⟩

/-- World in which every step succeeds and the issued credential expires
    far in the future; the clock reads 1000. -/
def wGood : World :=
  { now := 1000, resp := respGood,
    cognito := Except.ok
      { AccessKeyId := "AK", SecretKey := "SK", SessionToken := "ST",
        Expiration := 100000 },
    fixture := fun _ => Except.error Err.jsonError }

/-- The near-expired credential answer used by `wStaleIssue`. -/
def staleCreds : CognitoCredentials :=
  { AccessKeyId := "AK", SecretKey := "SK", SessionToken := "ST",
    Expiration := 500 }

/-- Like `wGood` but the issued credential's `Expiration` lies in the
    past (the identity-pool service controls this value; the client never
    checks it). -/
def wStaleIssue : World := { wGood with cognito := Except.ok staleCreds }

/-- Like `wGood` but the bootstrap step reports application status 500. -/
def wBootFail : World :=
  { wGood with resp := fun ep =>
      if ep = Endpoint.bootstrap then ⟨200, some (Json.obj [("statusCode", Json.num 500)])⟩
      else respGood ep }

/-- Like `wGood` but the primary login reports application status 403. -/
def wLoginFail : World :=
  { wGood with resp := fun ep =>
      if ep = Endpoint.accountsLogin then ⟨200, some (Json.obj [("statusCode", Json.num 403)])⟩
      else respGood ep }

/-- Like `wGood` but the JWT exchange reports application status 500
    (a step failing after the primary login succeeded). -/
def wJwtFail : World :=
  { wGood with resp := fun ep =>
      if ep = Endpoint.getJWT then ⟨200, some (Json.obj [("statusCode", Json.num 500)])⟩
      else respGood ep }

/-- Like `wGood` but the cloud-token-vending answer lacks `IdentityId`. -/
def wVendFail : World :=
  { wGood with resp := fun ep =>
      if ep = Endpoint.tokenVend then ⟨200, some (Json.obj [("Error", Json.str "denied")])⟩
      else respGood ep }

/-- Like `wGood` but the federated credential issuance fails with a
    boto3 client error. -/
def wIssueFail : World :=
  { wGood with cognito := Except.error "NotAuthorizedException" }

/-- Like `wGood` but the PIN authentication answer carries no token. -/
def wPinFail : World :=
  { wGood with resp := fun ep =>
      if ep = Endpoint.pinAuthenticate then ⟨200, some (Json.obj [])⟩
      else respGood ep }

/-- Like `wGood` but the command endpoint rejects the command. -/
def wCmdRejected : World :=
  { wGood with resp := fun ep =>
      if ep = Endpoint.commandPost then
        ⟨200, some (Json.obj [("responseStatus", Json.str "failed"),
                              ("debugMsg", Json.str "vehicle offline")])⟩
      else respGood ep }

/-- Like `wGood` but the command endpoint answers with an empty object. -/
def wCmdEmpty : World :=
  { wGood with resp := fun ep =>
      if ep = Endpoint.commandPost then ⟨200, some (Json.obj [])⟩
      else respGood ep }

/-- Like `wGood` but the vehicle list comes back with HTTP status 500
    (its body still holding the expected field). -/
def wList500 : World :=
  { wGood with resp := fun ep =>
      if ep = Endpoint.vehiclesList then ⟨500, some (Json.obj [("vehicles", Json.arr [])])⟩
      else respGood ep }

/-- A state already logged in: an old uid and a credential expiring at
    90000 (fresh relative to `wGood.now = 1000`). -/
def stFresh : St :=
  { st0 with api := { api0 with
      uid := some (Json.str "uid-old"),
      aws_auth := some (mkAWSSigV4 brand1
        { AccessKeyId := "OLDAK", SecretKey := "OLDSK", SessionToken := "OLDST",
          Expiration := 90000 }),
      expire_time := some 90000 } }

/-- A sample command descriptor. -/
def cmdDeepRefresh : Command := { name := "DEEPREFRESH", url := "ev" }

/-- `API.command` (lines 200-243). -/
def command (w : World) (vin : String) (cmd : Command) : M Unit := do
  let api ← getApi
  if api.dev_mode then
    pure ()
  else do
    let data := ofPairs [("pin", Json.str (b64encode api.pin))]
    refresh_token_if_needed w
    let api ← getApi
    let u ← uuid4hex
    let r ← sessRequest w Endpoint.pinAuthenticate
      (pyMerge (default_aws_headers api.brand.auth_api_key u)
        (ofPairs [("content-type", "application/json")]))
      data api.aws_auth
    let j ← getJson r
    if !Json.hasKey j "token" then throwE (Err.exception "authentication failed")
    let tok ← getKey j "token"
    let data := ofPairs [("command", Json.str cmd.name), ("pinAuth", tok)]
    let u ← uuid4hex
    let r ← sessRequest w Endpoint.commandPost
      (pyMerge (default_aws_headers api.brand.api_key u)
        (ofPairs [("content-type", "application/json")]))
      data api.aws_auth
    let j ← getJson r
    if !Json.hasKey j "responseStatus"
        || Json.getD j "responseStatus" Json.null != Json.str "pending" then
      throwE (Err.exception
        ("command queuing failed: " ++ fstr (Json.getD j "debugMsg" (Json.str "unknown error"))))
    else
      pure ()

/-- Number of requests in a trace that hit the command endpoint. -/
def countCP : List Req → Nat
  | [] => 0
  | r :: rest => (if r.ep = Endpoint.commandPost then 1 else 0) + countCP rest

/-- A state in dev mode. -/
def stDev : St := { st0 with api := { api0 with dev_mode := true } }

/-- Like `wGood` but the vehicle-list body lacks the `vehicles` field. -/
def wListNoField : World :=
  { wGood with resp := fun ep =>
      if ep = Endpoint.vehiclesList then ⟨200, some (Json.obj [("message", Json.str "forbidden")])⟩
      else respGood ep }

/-- Like `wGood` but `get_vehicle` answers with HTTP status 500 and an
    error document as body. -/
def wGet500 : World :=
  { wGood with resp := fun ep =>
      if ep = Endpoint.vehicleGet then ⟨500, some (Json.obj [("error", Json.str "server error")])⟩
      else respGood ep }

/-- Like `wGood` but the remote-status and location endpoints answer with
    HTTP status 502 and a body that is not JSON. -/
def wNoJson : World :=
  { wGood with resp := fun ep =>
      if ep = Endpoint.vehicleRemoteStatus ∨ ep = Endpoint.vehicleLocation then ⟨502, none⟩
      else respGood ep }

/-- Lowercase hexadecimal digits (the alphabet of `uuid4().hex`). -/
def lowerHexChars : List Char := "0123456789abcdef".data

/-- Uppercase hexadecimal digits. -/
def upperHexChars : List Char := "0123456789ABCDEF".data

/- Structural lemmas about the embedded operations. -/

theorem M_bind_apply {α β : Type} (x : M α) (f : α → M β) (s : St) :
    (x >>= f) s = match x s with
      | (Except.ok a, s') => f a s'
      | (Except.error e, s') => (Except.error e, s') := rfl

theorem M_pure_apply {α : Type} (a : α) (s : St) :
    (pure a : M α) s = (Except.ok a, s) := rfl

theorem refresh_eq (w : World) (st : St) :
    refresh_token_if_needed w st =
      if st.api.dev_mode = true then (Except.ok (), st)
      else if is_stale st.api.expire_time w.now = true then login w st
      else (Except.ok (), st) := by
  simp only [refresh_token_if_needed, M_bind_apply, getApi, M_pure_apply, ite_apply]

theorem throwE_apply {α : Type} (e : Err) (s : St) :
    (throwE e : M α) s = (Except.error e, s) := rfl

theorem getApi_apply (s : St) : getApi s = (Except.ok s.api, s) := rfl

theorem modifyApi_apply (f : API → API) (s : St) :
    modifyApi f s = (Except.ok (), { s with api := f s.api }) := rfl

theorem liftE_apply {α : Type} (x : Except Err α) (s : St) : liftE x s = (x, s) := rfl

theorem uuid4hex_apply (s : St) :
    uuid4hex s = (Except.ok (s.rng s.rngIdx), { s with rngIdx := s.rngIdx + 1 }) := rfl

theorem sessRequest_apply (w : World) (ep : Endpoint) (headers : PyDict String)
    (params : PyDict Json) (auth : Option Credential) (s : St) :
    sessRequest w ep headers params auth s =
      (Except.ok (w.resp ep),
       { s with trace := { ep := ep, headers := headers, params := params, auth := auth } :: s.trace }) := rfl

theorem getJson_apply (r : HttpResponse) (s : St) :
    getJson r s = match r.body with
      | some j => (Except.ok j, s)
      | none => (Except.error Err.jsonError, s) := by
  cases r with
  | mk status body => cases body <;> rfl

theorem getKey_apply (j : Json) (k : String) (s : St) :
    getKey j k s = match j with
      | Json.obj fs =>
        (match Json.get? (Json.obj fs) k with
         | some v => (Except.ok v, s)
         | none => (Except.error (Err.keyError k), s))
      | _ => (Except.error (Err.typeError k), s) := by
  cases j <;> try rfl
  rename_i fs
  cases hg : Json.get? (Json.obj fs) k <;> simp only [getKey, hg] <;> rfl

theorem cognitoGetCredentials_apply (w : World) (identityId token : Json) (s : St) :
    cognitoGetCredentials w identityId token s =
      (match w.cognito with
       | Except.ok c => Except.ok c
       | Except.error m => Except.error (Err.clientError m),
       { s with trace :=
          { ep := Endpoint.cognitoGetCredentials, headers := ofPairs [],
            params := ofPairs [("IdentityId", identityId), ("Logins", token)],
            auth := none } :: s.trace }) := by
  cases hc : w.cognito <;> simp only [cognitoGetCredentials, hc]

theorem throwE_bind {α β : Type} (e : Err) (f : α → M β) (s : St) :
    (throwE e >>= f) s = (Except.error e, s) := rfl

theorem pure_bind_apply {α β : Type} (a : α) (f : α → M β) (s : St) :
    ((pure a : M α) >>= f) s = f a s := rfl

theorem getApi_bind {β : Type} (f : API → M β) (s : St) :
    (getApi >>= f) s = f s.api s := rfl

theorem modifyApi_bind {β : Type} (g : API → API) (f : Unit → M β) (s : St) :
    (modifyApi g >>= f) s = f () { s with api := g s.api } := rfl

theorem uuid4hex_bind {β : Type} (f : List Char → M β) (s : St) :
    (uuid4hex >>= f) s = f (s.rng s.rngIdx) { s with rngIdx := s.rngIdx + 1 } := rfl

theorem sessRequest_bind {β : Type} (w : World) (ep : Endpoint) (headers : PyDict String)
    (params : PyDict Json) (auth : Option Credential) (f : HttpResponse → M β) (s : St) :
    (sessRequest w ep headers params auth >>= f) s =
      f (w.resp ep)
        { s with trace := { ep := ep, headers := headers, params := params, auth := auth } :: s.trace } := rfl

theorem liftE_bind {α β : Type} (x : Except Err α) (f : α → M β) (s : St) :
    (liftE x >>= f) s = match x with
      | Except.ok a => f a s
      | Except.error e => (Except.error e, s) := by
  cases x <;> rfl

theorem getJson_bind {β : Type} (r : HttpResponse) (f : Json → M β) (s : St) :
    (getJson r >>= f) s = match r.body with
      | some j => f j s
      | none => (Except.error Err.jsonError, s) := by
  cases r with
  | mk status body => cases body <;> rfl

theorem getKey_bind {β : Type} (j : Json) (k : String) (f : Json → M β) (s : St) :
    (getKey j k >>= f) s = match j with
      | Json.obj fs =>
        (match Json.get? (Json.obj fs) k with
         | some v => f v s
         | none => (Except.error (Err.keyError k), s))
      | _ => (Except.error (Err.typeError k), s) := by
  cases j <;> try rfl
  rename_i fs
  cases hg : Json.get? (Json.obj fs) k <;>
    simp only [M_bind_apply, getKey, hg] <;> rfl

theorem cognitoGetCredentials_bind {β : Type} (w : World) (identityId token : Json)
    (f : CognitoCredentials → M β) (s : St) :
    (cognitoGetCredentials w identityId token >>= f) s =
      match w.cognito with
      | Except.ok c =>
        f c { s with trace :=
          { ep := Endpoint.cognitoGetCredentials, headers := ofPairs [],
            params := ofPairs [("IdentityId", identityId), ("Logins", token)],
            auth := none } :: s.trace }
      | Except.error m =>
        (Except.error (Err.clientError m),
         { s with trace :=
          { ep := Endpoint.cognitoGetCredentials, headers := ofPairs [],
            params := ofPairs [("IdentityId", identityId), ("Logins", token)],
            auth := none } :: s.trace }) := by
  cases hc : w.cognito <;> simp only [M_bind_apply, cognitoGetCredentials, hc]

theorem ite_bind {α β : Type} (c : Prop) [Decidable c] (x y : M α) (f : α → M β) (s : St) :
    ((if c then x else y) >>= f) s = if c then (x >>= f) s else (y >>= f) s := by
  by_cases h : c <;> simp [h]

set_option maxHeartbeats 2000000 in
/-- Case analysis of `login`: it never posts to the command endpoint, and
    either it fails — leaving the stored signer and expiry untouched — or
    it succeeds, storing the signer and expiry issued by the
    identity-pool service. -/
theorem login_cases (w : World) (st : St) :
    countCP (login w st).2.trace = countCP st.trace ∧
    (((∃ e, (login w st).1 = Except.error e) ∧
      (login w st).2.api.aws_auth = st.api.aws_auth ∧
      (login w st).2.api.expire_time = st.api.expire_time) ∨
     (∃ c, w.cognito = Except.ok c ∧
      (login w st).1 = Except.ok () ∧
      (login w st).2.api.aws_auth = some (mkAWSSigV4 st.api.brand c) ∧
      (login w st).2.api.expire_time = some c.Expiration)) := by
  unfold login
  repeat'
    first
    | (simp only [getApi_bind, sessRequest_bind, getJson_bind, getKey_bind,
        uuid4hex_bind, modifyApi_bind, cognitoGetCredentials_bind, throwE_bind,
        pure_bind_apply, ite_bind, liftE_bind, throwE_apply, modifyApi_apply,
        M_pure_apply])
    | split
  all_goals simp_all [countCP]
/-- Refresh never posts to the command endpoint. -/
theorem refresh_countCP (w : World) (st : St) :
    countCP (refresh_token_if_needed w st).2.trace = countCP st.trace := by
  rw [refresh_eq]
  split
  · rfl
  · split
    · exact (login_cases w st).1
    · rfl

/-- C2 (counterexample): at the exact boundary `e - margin == t` the code
    classifies the credential as fresh, while the claim says stale. -/
theorem C2_counterexample :
    is_stale (some 1000) 700 = false ∧ (1000 : Int) - safety_margin ≤ 700 := by
  constructor <;> decide

/-- C2 (amended): the staleness predicate of line 126 is strict — it holds
    iff `e - margin < t` (or no credential exists); at the boundary
    `t = e - margin` the credential counts as fresh. -/
theorem C2_is_stale_strict :
    (∀ e t : Int, is_stale (some e) t = true ↔ e - safety_margin < t) ∧
    (∀ t : Int, is_stale none t = true) ∧
    (∀ e : Int, is_stale (some e) (e - safety_margin) = false) := by
  refine ⟨fun e t => ?_, fun t => rfl, fun e => ?_⟩
  · simp [is_stale]
  · simp [is_stale]

/-- C10: in dev mode `command` returns success immediately: no PIN
    verification, no request, no state change at all. -/
theorem C10_dev_mode_command (w : World) (vin : String) (cmd : Command) (st : St)
    (hdev : st.api.dev_mode = true) :
    (command w vin cmd st).1 = Except.ok () ∧ (command w vin cmd st).2 = st := by
  unfold command
  simp [getApi_bind, hdev, M_pure_apply]

/-- C10 witness. -/
theorem C10_dev_mode_command_witness :
    stDev.api.dev_mode = true ∧
    ((command wGood "VIN1" cmdDeepRefresh stDev).1 = Except.ok () ∧
     (command wGood "VIN1" cmdDeepRefresh stDev).2 = stDev) :=
  ⟨rfl, C10_dev_mode_command wGood "VIN1" cmdDeepRefresh stDev rfl⟩

/-- C1 (counterexample): with dev mode off, the freshness check can return
    without error while the stored credential expires in less than the
    safety margin — the client stores the server-issued `Expiration`
    unchecked (here 500, with `now = 1000`). -/
theorem C1_counterexample :
    st0.api.dev_mode = false ∧
    (refresh_token_if_needed wStaleIssue st0).1 = Except.ok () ∧
    (refresh_token_if_needed wStaleIssue st0).2.api.expire_time = some 500 ∧
    ¬ (wStaleIssue.now ≤ 500 - safety_margin) := by
  refine ⟨rfl, rfl, rfl, by decide⟩

/-- C1 (amended): when dev mode is off and the credential-issuance answer
    (if one is consulted) carries an expiry at least `safety_margin` in the
    future, a freshness check returning without error leaves a stored
    expiry at least `safety_margin` later than the current time. -/
theorem C1_refresh_margin (w : World) (st : St)
    (hdev : st.api.dev_mode = false)
    (hiss : ∀ c, w.cognito = Except.ok c → w.now ≤ c.Expiration - safety_margin)
    (hok : (refresh_token_if_needed w st).1 = Except.ok ()) :
    ∃ e, (refresh_token_if_needed w st).2.api.expire_time = some e ∧
      w.now ≤ e - safety_margin := by
  rw [refresh_eq] at hok ⊢
  rw [hdev] at hok ⊢
  simp only [Bool.false_eq_true, if_false] at hok ⊢
  by_cases hs : is_stale st.api.expire_time w.now = true
  · rw [if_pos hs] at hok ⊢
    rcases login_cases w st with ⟨-, ⟨⟨e, he⟩, -, -⟩ | ⟨c, hc, -, -, hexp⟩⟩
    · rw [he] at hok; simp at hok
    · exact ⟨c.Expiration, hexp, hiss c hc⟩
  · rw [if_neg hs] at hok ⊢
    cases hexp : st.api.expire_time with
    | none => rw [hexp] at hs; simp [is_stale] at hs
    | some e =>
      refine ⟨e, rfl, ?_⟩
      rw [hexp] at hs
      simp [is_stale] at hs
      omega

/-- C1 witness. -/
theorem C1_refresh_margin_witness :
    st0.api.dev_mode = false ∧
    (refresh_token_if_needed wGood st0).1 = Except.ok () ∧
    ∃ e, (refresh_token_if_needed wGood st0).2.api.expire_time = some e ∧
      wGood.now ≤ e - safety_margin :=
  ⟨rfl, rfl, C1_refresh_margin wGood st0 rfl
    (fun c hc => by
      cases hc
      decide) rfl⟩

/-- C3 (counterexample): when the JWT exchange fails after a successful
    primary login, `login` raises, yet the stored UID has already been
    overwritten — the session state is not left exactly as it was. -/
theorem C3_counterexample :
    (login wJwtFail stFresh).1 = Except.error (Err.exception "unable to obtain JWT") ∧
    stFresh.api.uid = some (Json.str "uid-old") ∧
    (login wJwtFail stFresh).2.api.uid = some (Json.str "uid-new") ∧
    some (Json.str "uid-new") ≠ some (Json.str "uid-old") := by
  refine ⟨rfl, rfl, rfl, ?_⟩
  intro h
  injection h with h2
  injection h2 with h3
  exact absurd h3 (by decide)

/-- C3 (amended): on any step failure `login` raises and leaves the stored
    signer (`aws_auth`) and `expire_time` unchanged; the UID, however, is
    overwritten as soon as the primary-login response is accepted, even if
    a later step then fails. -/
theorem C3_login_failure_frame (w : World) (st : St) (e : Err)
    (h : (login w st).1 = Except.error e) :
    (login w st).2.api.aws_auth = st.api.aws_auth ∧
    (login w st).2.api.expire_time = st.api.expire_time := by
  rcases login_cases w st with ⟨-, ⟨-, ha, he⟩ | ⟨c, -, hok, -, -⟩⟩
  · exact ⟨ha, he⟩
  · rw [h] at hok; simp at hok

/-- C3 witness. -/
theorem C3_login_failure_frame_witness :
    (login wJwtFail st0).1 = Except.error (Err.exception "unable to obtain JWT") ∧
    ((login wJwtFail st0).2.api.aws_auth = st0.api.aws_auth ∧
     (login wJwtFail st0).2.api.expire_time = st0.api.expire_time) :=
  ⟨rfl, C3_login_failure_frame wJwtFail st0 (Err.exception "unable to obtain JWT") rfl⟩

/-- C4 (counterexample): two different failing steps (bootstrap and primary
    login) raise errors of one and the same generic kind (`Exception`), not
    distinct step-specific kinds. -/
theorem C4_counterexample :
    (login wBootFail st0).1 = Except.error (Err.exception "bootstrap failed") ∧
    (login wLoginFail st0).1 = Except.error (Err.exception "login failed") ∧
    Err.kind (Err.exception "bootstrap failed") = Err.kind (Err.exception "login failed") :=
  ⟨rfl, rfl, rfl⟩

/-- C4 (amended): the explicit raise sites all use the one generic
    `Exception` kind, distinguishable only by their message strings (which
    are pairwise distinct); the cloud-token-vending and federated
    credential-issuance steps have no step-specific raise at all — their
    failures surface as a missing-key error and a client error of the
    cognito library. -/
theorem C4_error_kinds :
    (login wBootFail st0).1 = Except.error (Err.exception "bootstrap failed") ∧
    (login wLoginFail st0).1 = Except.error (Err.exception "login failed") ∧
    (login wJwtFail st0).1 = Except.error (Err.exception "unable to obtain JWT") ∧
    (login wVendFail st0).1 = Except.error (Err.keyError "IdentityId") ∧
    (login wIssueFail st0).1 = Except.error (Err.clientError "NotAuthorizedException") ∧
    (command wPinFail "VIN1" cmdDeepRefresh stFresh).1 =
      Except.error (Err.exception "authentication failed") ∧
    (command wCmdRejected "VIN1" cmdDeepRefresh stFresh).1 =
      Except.error (Err.exception "command queuing failed: vehicle offline") ∧
    Err.kind (Err.exception "bootstrap failed") = "Exception" ∧
    Err.kind (Err.exception "login failed") = "Exception" ∧
    Err.kind (Err.exception "unable to obtain JWT") = "Exception" ∧
    Err.kind (Err.exception "authentication failed") = "Exception" ∧
    Err.kind (Err.exception "command queuing failed: vehicle offline") = "Exception" ∧
    List.Pairwise (fun a b => a ≠ b)
      ["bootstrap failed", "login failed", "unable to obtain JWT",
       "authentication failed", "command queuing failed: vehicle offline"] := by
  refine ⟨rfl, rfl, rfl, rfl, rfl, rfl, rfl, rfl, rfl, rfl, rfl, rfl, ?_⟩
  decide

theorem C5_pin_auth_gate (w : World) (vin : String) (cmd : Command) (st : St) (jp : Json)
    (hdev : st.api.dev_mode = false)
    (hok : (refresh_token_if_needed w st).1 = Except.ok ())
    (hbody : (w.resp Endpoint.pinAuthenticate).body = some jp)
    (htok : Json.hasKey jp "token" = false) :
    (command w vin cmd st).1 = Except.error (Err.exception "authentication failed") ∧
    countCP (command w vin cmd st).2.trace = countCP st.trace := by
  have hre : refresh_token_if_needed w st = (Except.ok (), (refresh_token_if_needed w st).2) := by
    rw [← hok]
  unfold command
  simp only [getApi_bind, hdev, Bool.false_eq_true, if_false]
  rw [M_bind_apply (refresh_token_if_needed w), hre]
  simp only [getApi_bind, uuid4hex_bind, sessRequest_bind, getJson_bind, hbody, htok,
    ite_bind, throwE_bind, pure_bind_apply, M_pure_apply, Bool.not_false, if_true]
  exact ⟨trivial, by simp [countCP, refresh_countCP w st]⟩

theorem Json.beq_eq (a b : Json) : (a == b) = Json.beq a b := rfl

theorem Json.beq_str_true {v : Json} {t : String} (h : (v == Json.str t) = true) :
    v = Json.str t := by
  cases v with
  | str s =>
    have hs : (s == t) = true := by simpa [Json.beq_eq, Json.beq] using h
    rw [eq_of_beq hs]
  | null => simp [Json.beq_eq, Json.beq] at h
  | bool b => simp [Json.beq_eq, Json.beq] at h
  | num n => simp [Json.beq_eq, Json.beq] at h
  | arr a => simp [Json.beq_eq, Json.beq] at h
  | obj fs => simp [Json.beq_eq, Json.beq] at h

theorem Json.hasKey_eq_isSome (j : Json) (k : String) :
    Json.hasKey j k = (Json.get? j k).isSome := by
  cases j <;> try rfl
  rename_i fs
  simp only [Json.hasKey, Json.get?]
  induction fs with
  | nil => rfl
  | cons x xs ih =>
    cases hx : x.1 == k <;> simp [List.any_cons, List.find?_cons, hx, ih]

theorem Json.get?_obj {j : Json} {k : String} {v : Json} (h : Json.get? j k = some v) :
    ∃ fs, j = Json.obj fs := by
  cases j <;> simp [Json.get?] at h
  exact ⟨_, rfl⟩

theorem C6_command_check (w : World) (vin : String) (cmd : Command) (st : St)
    (jp tok j : Json)
    (hdev : st.api.dev_mode = false)
    (hok : (refresh_token_if_needed w st).1 = Except.ok ())
    (hpin : (w.resp Endpoint.pinAuthenticate).body = some jp)
    (htok : Json.get? jp "token" = some tok)
    (hcmd : (w.resp Endpoint.commandPost).body = some j) :
    ((command w vin cmd st).1 = Except.ok () ↔
      Json.get? j "responseStatus" = some (Json.str "pending")) ∧
    (Json.get? j "responseStatus" ≠ some (Json.str "pending") →
      (command w vin cmd st).1 = Except.error (Err.exception
        ("command queuing failed: " ++
          fstr (Json.getD j "debugMsg" (Json.str "unknown error"))))) := by
  obtain ⟨fsp, rfl⟩ := Json.get?_obj htok
  have hre : refresh_token_if_needed w st = (Except.ok (), (refresh_token_if_needed w st).2) := by
    rw [← hok]
  have hk1 : Json.hasKey (Json.obj fsp) "token" = true := by
    rw [Json.hasKey_eq_isSome, htok]; rfl
  unfold command
  simp only [getApi_bind, hdev, Bool.false_eq_true, if_false]
  rw [M_bind_apply (refresh_token_if_needed w), hre]
  simp only [getApi_bind, uuid4hex_bind, sessRequest_bind, getJson_bind, hpin, hcmd,
    htok, hk1, getKey_bind, ite_bind, throwE_bind, pure_bind_apply, M_pure_apply,
    Bool.not_true, if_false, ite_apply, throwE_apply]
  by_cases hrs : Json.get? j "responseStatus" = some (Json.str "pending")
  · have hck : (!Json.hasKey j "responseStatus" ||
        (Json.getD j "responseStatus" Json.null != Json.str "pending")) = false := by
      rw [Json.hasKey_eq_isSome, hrs]
      simp [Json.getD, hrs, bne, Json.beq_eq, Json.beq]
    simp only [hck, Bool.false_eq_true, if_false, M_pure_apply]
    constructor
    · simp [hrs]
    · intro hcon; exact absurd hrs hcon
  · have hne : (Json.getD j "responseStatus" Json.null != Json.str "pending") = true ∨
        Json.hasKey j "responseStatus" = false := by
      cases hv : Json.get? j "responseStatus" with
      | none => right; rw [Json.hasKey_eq_isSome, hv]; rfl
      | some v =>
        left
        have hvne : v ≠ Json.str "pending" := by
          intro hcon; rw [hv, hcon] at hrs; exact hrs rfl
        have : (v == Json.str "pending") = false := by
          cases hb : v == Json.str "pending"
          · rfl
          · exact absurd (Json.beq_str_true hb) hvne
        simp [Json.getD, hv, bne, this]
    have hck : (!Json.hasKey j "responseStatus" ||
        (Json.getD j "responseStatus" Json.null != Json.str "pending")) = true := by
      rcases hne with h | h
      · simp [h]
      · simp [h]
    simp only [hck, if_true, M_pure_apply]
    constructor
    · constructor
      · intro hcon; simp at hcon
      · intro hcon; exact absurd hcon hrs
    · intro _; rfl

theorem Json.str_ne {s t : String} (h : s ≠ t) : Json.str s ≠ Json.str t :=
  fun hc => h (Json.str.inj hc)

/-- C5 witness. -/
theorem C5_pin_auth_gate_witness :
    stFresh.api.dev_mode = false ∧
    (refresh_token_if_needed wPinFail stFresh).1 = Except.ok () ∧
    (wPinFail.resp Endpoint.pinAuthenticate).body = some (Json.obj []) ∧
    Json.hasKey (Json.obj []) "token" = false ∧
    ((command wPinFail "VIN1" cmdDeepRefresh stFresh).1 =
       Except.error (Err.exception "authentication failed") ∧
     countCP (command wPinFail "VIN1" cmdDeepRefresh stFresh).2.trace =
       countCP stFresh.trace) :=
  ⟨rfl, rfl, rfl, rfl,
   C5_pin_auth_gate wPinFail "VIN1" cmdDeepRefresh stFresh (Json.obj []) rfl rfl rfl rfl⟩

/-- C6 witness. -/
theorem C6_command_check_witness :
    stFresh.api.dev_mode = false ∧
    (refresh_token_if_needed wCmdRejected stFresh).1 = Except.ok () ∧
    (wCmdRejected.resp Endpoint.pinAuthenticate).body =
      some (Json.obj [("token", Json.str "stepup-1")]) ∧
    Json.get? (Json.obj [("token", Json.str "stepup-1")]) "token" =
      some (Json.str "stepup-1") ∧
    (wCmdRejected.resp Endpoint.commandPost).body =
      some (Json.obj [("responseStatus", Json.str "failed"),
                      ("debugMsg", Json.str "vehicle offline")]) ∧
    (command wCmdRejected "VIN1" cmdDeepRefresh stFresh).1 =
      Except.error (Err.exception "command queuing failed: vehicle offline") := by
  refine ⟨rfl, rfl, rfl, rfl, rfl, ?_⟩
  have h := (C6_command_check wCmdRejected "VIN1" cmdDeepRefresh stFresh
    (Json.obj [("token", Json.str "stepup-1")]) (Json.str "stepup-1")
    (Json.obj [("responseStatus", Json.str "failed"),
               ("debugMsg", Json.str "vehicle offline")])
    rfl rfl rfl rfl rfl).2
  have hne : Json.get? (Json.obj [("responseStatus", Json.str "failed"),
      ("debugMsg", Json.str "vehicle offline")]) "responseStatus" ≠
      some (Json.str "pending") := by
    rw [show Json.get? (Json.obj [("responseStatus", Json.str "failed"),
      ("debugMsg", Json.str "vehicle offline")]) "responseStatus" =
      some (Json.str "failed") from rfl]
    intro hc
    exact Json.str_ne (by decide) (Option.some.inj hc)
  exact h hne

/-- C7 (counterexample): read operations with a non-2xx HTTP status
    answer do not fail — `list_vehicles` returns a value on an HTTP 500
    whose body carries the expected field, and `get_vehicle` returns the
    body of an HTTP 500 whole — the HTTP status is never inspected. -/
theorem C7_counterexample :
    (wList500.resp Endpoint.vehiclesList).status = 500 ∧
    ¬ (200 ≤ (wList500.resp Endpoint.vehiclesList).status ∧
       (wList500.resp Endpoint.vehiclesList).status < 300) ∧
    (list_vehicles wList500 stFresh).1 = Except.ok (Json.arr []) ∧
    (wGet500.resp Endpoint.vehicleGet).status = 500 ∧
    ¬ (200 ≤ (wGet500.resp Endpoint.vehicleGet).status ∧
       (wGet500.resp Endpoint.vehicleGet).status < 300) ∧
    (get_vehicle wGet500 "VIN1" stFresh).1 =
      Except.ok (Json.obj [("error", Json.str "server error")]) := by
  exact ⟨rfl, by decide, rfl, rfl, by decide, rfl⟩

/-- C7 (amended): for every read operation — `list_vehicles`,
    `get_vehicle`, `get_vehicle_status`, `get_vehicle_location` — an
    unparseable response body is a hard failure, and `list_vehicles`
    fails hard when its body lacks the expected `vehicles` sub-object
    (the other three reads extract no sub-object: any parsed body is
    returned whole); the HTTP status code, however, is never inspected —
    every outcome below is determined by the response body alone. -/
theorem C7_read_failures (w : World) (st : St) (vin : String)
    (hdev : st.api.dev_mode = false)
    (hok : (refresh_token_if_needed w st).1 = Except.ok ()) :
    ((w.resp Endpoint.vehiclesList).body = none →
      (list_vehicles w st).1 = Except.error Err.jsonError) ∧
    (∀ j, (w.resp Endpoint.vehiclesList).body = some j →
      Json.hasKey j "vehicles" = false →
      ∃ er, (list_vehicles w st).1 = Except.error er) ∧
    (∀ j v, (w.resp Endpoint.vehiclesList).body = some j →
      Json.get? j "vehicles" = some v →
      (list_vehicles w st).1 = Except.ok v) ∧
    ((w.resp Endpoint.vehicleGet).body = none →
      (get_vehicle w vin st).1 = Except.error Err.jsonError) ∧
    (∀ j, (w.resp Endpoint.vehicleGet).body = some j →
      (get_vehicle w vin st).1 = Except.ok j) ∧
    ((w.resp Endpoint.vehicleRemoteStatus).body = none →
      (get_vehicle_status w vin st).1 = Except.error Err.jsonError) ∧
    (∀ j, (w.resp Endpoint.vehicleRemoteStatus).body = some j →
      (get_vehicle_status w vin st).1 = Except.ok j) ∧
    ((w.resp Endpoint.vehicleLocation).body = none →
      (get_vehicle_location w vin st).1 = Except.error Err.jsonError) ∧
    (∀ j, (w.resp Endpoint.vehicleLocation).body = some j →
      (get_vehicle_location w vin st).1 = Except.ok j) := by
  have hre : refresh_token_if_needed w st = (Except.ok (), (refresh_token_if_needed w st).2) := by
    rw [← hok]
  refine ⟨?_, ?_, ?_, ?_, ?_, ?_, ?_, ?_, ?_⟩
  · intro hb
    unfold list_vehicles
    simp only [getApi_bind, hdev, Bool.false_eq_true, if_false]
    rw [M_bind_apply (refresh_token_if_needed w), hre]
    simp only [getApi_bind, uuid4hex_bind, sessRequest_bind, getJson_bind, hb]
  · intro j hb hkey
    have hnone : Json.get? j "vehicles" = none := by
      cases hv : Json.get? j "vehicles" with
      | none => rfl
      | some v => rw [Json.hasKey_eq_isSome, hv] at hkey; simp at hkey
    unfold list_vehicles
    simp only [getApi_bind, hdev, Bool.false_eq_true, if_false]
    rw [M_bind_apply (refresh_token_if_needed w), hre]
    simp only [getApi_bind, uuid4hex_bind, sessRequest_bind, getJson_bind, hb]
    cases j with
    | obj fs => exact ⟨Err.keyError "vehicles", by simp [getKey, hnone, throwE_apply]⟩
    | null => exact ⟨Err.typeError "vehicles", rfl⟩
    | bool b => exact ⟨Err.typeError "vehicles", rfl⟩
    | num n => exact ⟨Err.typeError "vehicles", rfl⟩
    | str s => exact ⟨Err.typeError "vehicles", rfl⟩
    | arr a => exact ⟨Err.typeError "vehicles", rfl⟩
  · intro j v hb hv
    obtain ⟨fs, rfl⟩ := Json.get?_obj hv
    unfold list_vehicles
    simp only [getApi_bind, hdev, Bool.false_eq_true, if_false]
    rw [M_bind_apply (refresh_token_if_needed w), hre]
    simp only [getApi_bind, uuid4hex_bind, sessRequest_bind, getJson_bind, hb]
    simp [getKey, hv, M_pure_apply]
  · intro hb
    unfold get_vehicle
    simp only [getApi_bind, hdev, Bool.false_eq_true, if_false]
    rw [M_bind_apply (refresh_token_if_needed w), hre]
    simp only [getApi_bind, uuid4hex_bind, sessRequest_bind, getJson_apply, hb]
  · intro j hb
    unfold get_vehicle
    simp only [getApi_bind, hdev, Bool.false_eq_true, if_false]
    rw [M_bind_apply (refresh_token_if_needed w), hre]
    simp only [getApi_bind, uuid4hex_bind, sessRequest_bind, getJson_apply, hb]
  · intro hb
    unfold get_vehicle_status
    simp only [getApi_bind, hdev, Bool.false_eq_true, if_false]
    rw [M_bind_apply (refresh_token_if_needed w), hre]
    simp only [getApi_bind, uuid4hex_bind, sessRequest_bind, getJson_apply, hb]
  · intro j hb
    unfold get_vehicle_status
    simp only [getApi_bind, hdev, Bool.false_eq_true, if_false]
    rw [M_bind_apply (refresh_token_if_needed w), hre]
    simp only [getApi_bind, uuid4hex_bind, sessRequest_bind, getJson_apply, hb]
  · intro hb
    unfold get_vehicle_location
    simp only [getApi_bind, hdev, Bool.false_eq_true, if_false]
    rw [M_bind_apply (refresh_token_if_needed w), hre]
    simp only [getApi_bind, uuid4hex_bind, sessRequest_bind, getJson_apply, hb]
  · intro j hb
    unfold get_vehicle_location
    simp only [getApi_bind, hdev, Bool.false_eq_true, if_false]
    rw [M_bind_apply (refresh_token_if_needed w), hre]
    simp only [getApi_bind, uuid4hex_bind, sessRequest_bind, getJson_apply, hb]

/-- C7 witness: one concrete exercise per read operation — a missing
    `vehicles` field, a non-2xx `get_vehicle` body returned whole, and
    unparseable bodies for the remote-status and location reads. -/
theorem C7_read_failures_witness :
    stFresh.api.dev_mode = false ∧
    (refresh_token_if_needed wListNoField stFresh).1 = Except.ok () ∧
    (wListNoField.resp Endpoint.vehiclesList).body =
      some (Json.obj [("message", Json.str "forbidden")]) ∧
    Json.hasKey (Json.obj [("message", Json.str "forbidden")]) "vehicles" = false ∧
    (∃ er, (list_vehicles wListNoField stFresh).1 = Except.error er) ∧
    (get_vehicle wGet500 "VIN1" stFresh).1 =
      Except.ok (Json.obj [("error", Json.str "server error")]) ∧
    (get_vehicle_status wNoJson "VIN1" stFresh).1 = Except.error Err.jsonError ∧
    (get_vehicle_location wNoJson "VIN1" stFresh).1 = Except.error Err.jsonError := by
  obtain ⟨-, h2, -, -, -, -, -, -, -⟩ :=
    C7_read_failures wListNoField stFresh "VIN1" rfl rfl
  obtain ⟨-, -, -, -, g5, -, -, -, -⟩ :=
    C7_read_failures wGet500 stFresh "VIN1" rfl rfl
  obtain ⟨-, -, -, -, -, k6, -, k8, -⟩ :=
    C7_read_failures wNoJson stFresh "VIN1" rfl rfl
  exact ⟨rfl, rfl, rfl, rfl,
    h2 (Json.obj [("message", Json.str "forbidden")]) rfl rfl,
    g5 (Json.obj [("error", Json.str "server error")]) rfl,
    k6 rfl, k8 rfl⟩

/-- With dev mode off and a fresh credential, one `list_vehicles` call
    issues exactly one request — to the vehicle-list endpoint, with a
    correlation id drawn from the next entropy-stream position — and
    advances the entropy index by one, touching nothing else. -/
theorem getKey_snd (j : Json) (k : String) (s : St) : (getKey j k s).2 = s := by
  cases j <;> try rfl
  rename_i fs
  cases hg : Json.get? (Json.obj fs) k <;> simp [getKey_apply, hg]

theorem list_vehicles_fresh (w : World) (st : St)
    (hdev : st.api.dev_mode = false)
    (hfresh : is_stale st.api.expire_time w.now = false) :
    (list_vehicles w st).2.trace =
      { ep := Endpoint.vehiclesList,
        headers := pyMerge (default_aws_headers st.api.brand.api_key (st.rng st.rngIdx))
          (ofPairs [("content-type", "application/json")]),
        params := ofPairs [("stage", Json.str "ALL")],
        auth := st.api.aws_auth } :: st.trace ∧
    (list_vehicles w st).2.api = st.api ∧
    (list_vehicles w st).2.rng = st.rng ∧
    (list_vehicles w st).2.rngIdx = st.rngIdx + 1 := by
  have hre : refresh_token_if_needed w st = (Except.ok (), st) := by
    rw [refresh_eq, hdev, hfresh]
    simp
  unfold list_vehicles
  simp only [getApi_bind, hdev, Bool.false_eq_true, if_false]
  rw [M_bind_apply (refresh_token_if_needed w), hre]
  simp only [getApi_bind, uuid4hex_bind, sessRequest_bind, getJson_bind, getKey_bind,
    M_pure_apply, throwE_apply]
  repeat' split
  all_goals simp only [getKey_snd]
  all_goals and_intros <;> first | rfl | trivial

/-- C8: correlation ids.  First part: for any entropy value of the shape
    `uuid4().hex` produces (32 lowercase hex characters), the generated
    `clientrequestid` header is exactly 16 characters of uppercase hex.
    Second part: two back-to-back authenticated calls draw their ids from
    distinct (consecutive) entropy-stream positions — a fresh id per call,
    never a reuse — so the ids differ whenever the drawn values differ. -/
theorem C8_correlation_ids :
    (∀ (key : String) (u : List Char),
      u.length = 32 → (∀ c ∈ u, c ∈ lowerHexChars) →
      default_aws_headers key u "clientrequestid" = some (clientrequestid_of u) ∧
      (clientrequestid_of u).length = 16 ∧
      (∀ c ∈ (clientrequestid_of u).data, c ∈ upperHexChars)) ∧
    (∀ (w : World) (st : St),
      st.api.dev_mode = false →
      is_stale st.api.expire_time w.now = false →
      ∃ r1 r2 rest,
        (list_vehicles w ((list_vehicles w st).2)).2.trace = r2 :: r1 :: rest ∧
        r1.ep = Endpoint.vehiclesList ∧ r2.ep = Endpoint.vehiclesList ∧
        r1.headers "clientrequestid" = some (clientrequestid_of (st.rng st.rngIdx)) ∧
        r2.headers "clientrequestid" = some (clientrequestid_of (st.rng (st.rngIdx + 1))) ∧
        (clientrequestid_of (st.rng st.rngIdx) ≠ clientrequestid_of (st.rng (st.rngIdx + 1)) →
          r1.headers "clientrequestid" ≠ r2.headers "clientrequestid")) := by
  constructor
  · intro key u h32 hhex
    refine ⟨rfl, ?_, ?_⟩
    · show ((u.map Char.toUpper).take 16).length = 16
      rw [List.length_take, List.length_map, h32]
      decide
    · intro c hc
      have hc' : c ∈ (u.map Char.toUpper).take 16 := hc
      have hmem := List.mem_map.mp (List.mem_of_mem_take hc')
      obtain ⟨c', hc'u, rfl⟩ := hmem
      have hl := hhex c' hc'u
      have hstep : ∀ c ∈ lowerHexChars, Char.toUpper c ∈ upperHexChars := by decide
      exact hstep c' hl
  · intro w st hdev hfresh
    obtain ⟨ht1, ha1, hr1, hi1⟩ := list_vehicles_fresh w st hdev hfresh
    have hdev2 : (list_vehicles w st).2.api.dev_mode = false := by rw [ha1]; exact hdev
    have hfresh2 : is_stale (list_vehicles w st).2.api.expire_time w.now = false := by
      rw [ha1]; exact hfresh
    obtain ⟨ht2, ha2, hr2, hi2⟩ := list_vehicles_fresh w ((list_vehicles w st).2) hdev2 hfresh2
    rw [ha1, hr1, hi1, ht1] at ht2
    refine ⟨_, _, st.trace, ht2, rfl, rfl, rfl, rfl, ?_⟩
    intro hne hcon
    exact hne (Option.some.inj hcon)

/-- C8 witness. -/
theorem C8_correlation_ids_witness :
    hex32.length = 32 ∧ (∀ c ∈ hex32, c ∈ lowerHexChars) ∧
    (default_aws_headers "K" hex32 "clientrequestid" = some (clientrequestid_of hex32) ∧
     (clientrequestid_of hex32).length = 16 ∧
     (∀ c ∈ (clientrequestid_of hex32).data, c ∈ upperHexChars)) ∧
    stFresh.api.dev_mode = false ∧
    is_stale stFresh.api.expire_time wGood.now = false ∧
    (∃ r1 r2 rest,
      (list_vehicles wGood ((list_vehicles wGood stFresh).2)).2.trace = r2 :: r1 :: rest ∧
      r1.ep = Endpoint.vehiclesList ∧ r2.ep = Endpoint.vehiclesList ∧
      r1.headers "clientrequestid" =
        some (clientrequestid_of (stFresh.rng stFresh.rngIdx)) ∧
      r2.headers "clientrequestid" =
        some (clientrequestid_of (stFresh.rng (stFresh.rngIdx + 1))) ∧
      (clientrequestid_of (stFresh.rng stFresh.rngIdx) ≠
          clientrequestid_of (stFresh.rng (stFresh.rngIdx + 1)) →
        r1.headers "clientrequestid" ≠ r2.headers "clientrequestid")) :=
  ⟨by decide, by decide,
   C8_correlation_ids.1 "K" hex32 (by decide) (by decide),
   rfl, rfl,
   C8_correlation_ids.2 wGood stFresh rfl rfl⟩

/-- C9: in `_with_default_params` the fixed defaults win on key collision
    (they are the right operand of the Python `|` merge): any key of the
    caller's dict that is also a default key comes out carrying the default
    value, and every other key of the caller's dict is preserved. -/
theorem C9_default_params_precedence (api : API) (params : PyDict Json) :
    (∀ k v, default_params api k = some v → with_default_params api params k = some v) ∧
    (∀ k, default_params api k = none → with_default_params api params k = params k) ∧
    default_params api "targetEnv" = some (Json.str "jssdk") ∧
    default_params api "loginMode" = some (Json.str "standard") ∧
    default_params api "sdk" = some (Json.str "js_latest") ∧
    default_params api "authMode" = some (Json.str "cookie") ∧
    default_params api "sdkBuild" = some (Json.str "12234") ∧
    default_params api "format" = some (Json.str "json") ∧
    default_params api "APIKey" = some (Json.str api.brand.login_api_key) ∧
    (∀ k, k ≠ "targetEnv" → k ≠ "loginMode" → k ≠ "sdk" → k ≠ "authMode" →
      k ≠ "sdkBuild" → k ≠ "format" → k ≠ "APIKey" → default_params api k = none) := by
  refine ⟨?_, ?_, rfl, rfl, rfl, rfl, rfl, rfl, rfl, ?_⟩
  · intro k v h
    unfold with_default_params pyMerge
    rw [h]
  · intro k h
    unfold with_default_params pyMerge
    rw [h]
  · intro k h1 h2 h3 h4 h5 h6 h7
    have e1 : ("targetEnv" == k) = false := beq_eq_false_iff_ne.mpr (Ne.symm h1)
    have e2 : ("loginMode" == k) = false := beq_eq_false_iff_ne.mpr (Ne.symm h2)
    have e3 : ("sdk" == k) = false := beq_eq_false_iff_ne.mpr (Ne.symm h3)
    have e4 : ("authMode" == k) = false := beq_eq_false_iff_ne.mpr (Ne.symm h4)
    have e5 : ("sdkBuild" == k) = false := beq_eq_false_iff_ne.mpr (Ne.symm h5)
    have e6 : ("format" == k) = false := beq_eq_false_iff_ne.mpr (Ne.symm h6)
    have e7 : ("APIKey" == k) = false := beq_eq_false_iff_ne.mpr (Ne.symm h7)
    simp [default_params, ofPairs, List.find?, e1, e2, e3, e4, e5, e6, e7]

/-- C9 witness. -/
theorem C9_default_params_precedence_witness :
    with_default_params api0
      (ofPairs [("APIKey", Json.str "user-key"), ("loginID", Json.str "me")]) "APIKey" =
      some (Json.str api0.brand.login_api_key) ∧
    with_default_params api0
      (ofPairs [("APIKey", Json.str "user-key"), ("loginID", Json.str "me")]) "loginID" =
      some (Json.str "me") := by
  constructor
  · exact (C9_default_params_precedence api0
      (ofPairs [("APIKey", Json.str "user-key"), ("loginID", Json.str "me")])).1
      "APIKey" (Json.str api0.brand.login_api_key) rfl
  · rw [(C9_default_params_precedence api0
      (ofPairs [("APIKey", Json.str "user-key"), ("loginID", Json.str "me")])).2.1
      "loginID" rfl]
    rfl

/-- C2 witness. -/
theorem C2_is_stale_strict_witness :
    (is_stale (some 1000) 701 = true ↔ (1000 : Int) - safety_margin < 701) ∧
    is_stale none 0 = true ∧
    is_stale (some 1000) (1000 - safety_margin) = false :=
  ⟨C2_is_stale_strict.1 1000 701, C2_is_stale_strict.2.1 0, C2_is_stale_strict.2.2 1000⟩
